import Mathlib

/-!
Verification of the climate-disaster dashboard core (src/app.py).

The dataframe is embedded as a list of records; a numeric dataframe cell is
`Option ℚ`, where `none` models a missing value / the floating-point NaN
sentinel (pandas represents both the same way).  Every definition below is
translated from the source: `typeRestrict` is the allow-list restriction
(line 40), `restrictAndClean` the fillna preprocessing (lines 43-47),
`applyFilter` the sidebar mask (lines 65-69), `summarize` the four metrics
(lines 74-81), `yearlyTrends` the groupby-size series (line 85), and
`corrCellIsNaN` the definedness of a cell of `filtered_df[impact_cols].corr()`
(lines 108-109).
-/

namespace ClimateRisk

/-- A numeric dataframe cell: `none` models NaN / a missing value. -/
abbrev Cell := Option ℚ

/-- One row of the dataset, with the five columns the core reads. -/
structure DisasterRecord where
  year : Int
  disasterType : String
  totalDeaths : Cell
  totalAffected : Cell
  totalDamages : Cell
deriving DecidableEq

/-- A dataframe: ordered rows. -/
abbrev Dataset := List DisasterRecord

/-- The fixed allow-list `climate_disasters` (app.py line 39). -/
def climate_disasters : List String :=
  ["Flood", "Storm", "Wildfire", "Extreme temperature"]

/-- Row restriction `df[df[DisasterType].isin(climate_disasters)]` (line 40). -/
def typeRestrict (df : Dataset) : Dataset :=
  df.filter (fun r => climate_disasters.contains r.disasterType)

/-- pandas `Series.mean()`: arithmetic mean of the non-missing entries,
NaN (`none`) when every entry is missing. -/
def seriesMean (col : List Cell) : Cell :=
  let vals := col.filterMap id
  if vals.isEmpty then none else some (vals.sum / vals.length)

/-- pandas `Series.fillna(v)`: a missing entry becomes `v`; filling with the
NaN value (`none`) leaves the entry missing. -/
def fillnaCell (v : Cell) (x : Cell) : Cell :=
  x.or v

/-- Preprocessing (lines 40-47): allow-list restriction, then fillna 0 on
deaths and affected and fillna of the damages column mean, the mean taken
over the type-restricted rows before any user filtering. -/
def restrictAndClean (df : Dataset) : Dataset :=
  let dfc := typeRestrict df
  let damagesMean := seriesMean (dfc.map (·.totalDamages))
  dfc.map (fun r =>
    { r with
      totalDeaths := some (r.totalDeaths.getD 0)
      totalAffected := some (r.totalAffected.getD 0)
      totalDamages := fillnaCell damagesMean r.totalDamages })

/-- The sidebar filter state: inclusive year bounds and the selected types. -/
structure FilterCriteria where
  yearLo : Int
  yearHi : Int
  selectedTypes : List String
deriving DecidableEq

/-- The mask of lines 65-68 and the row selection `df_climate[mask]` of
line 69: `Year.between` is inclusive on both bounds. -/
def applyFilter (dfc : Dataset) (c : FilterCriteria) : Dataset :=
  dfc.filter (fun r =>
    (decide (c.yearLo ≤ r.year) && decide (r.year ≤ c.yearHi)) &&
      c.selectedTypes.contains r.disasterType)

/-- The four displayed metrics (lines 74-81). -/
structure Metrics where
  eventCount : Nat
  totalDeaths : ℚ
  totalAffected : ℚ
  totalDamages : ℚ
deriving DecidableEq

/-- pandas `Series.sum()`: missing entries are skipped (contribute 0). -/
def seriesSum (col : List Cell) : ℚ :=
  (col.map (fun x => x.getD 0)).sum

/-- Metric values `len(filtered_df)` and the three column sums (lines 74-81). -/
def summarize (v : Dataset) : Metrics :=
  { eventCount := v.length
    totalDeaths := seriesSum (v.map (·.totalDeaths))
    totalAffected := seriesSum (v.map (·.totalAffected))
    totalDamages := seriesSum (v.map (·.totalDamages)) }

/-- The distinct years of a view, in first-occurrence order. -/
def distinctYears (v : Dataset) : List Int :=
  (v.map (·.year)).dedup

/-- Grouping `filtered_df.groupby(Year).size()` (line 85): one (year, row count) pair
per distinct year, keys sorted ascending as pandas groupby sorts them. -/
def yearlyTrends (v : Dataset) : List (Int × Nat) :=
  ((distinctYears v).insertionSort (· ≤ ·)).map
    (fun y => (y, v.countP (fun r => r.year == y)))

/-- The three numeric columns of `impact_cols` (line 108). -/
inductive ImpactCol
  | deaths
  | affected
  | damages
deriving DecidableEq

/-- Column projection for an impact column. -/
def colOf : ImpactCol → DisasterRecord → Cell
  | .deaths => (·.totalDeaths)
  | .affected => (·.totalAffected)
  | .damages => (·.totalDamages)

/-- Rows where both projections are non-missing: the pairwise-complete
observations pandas `corr` uses for one cell. -/
def pairedVals (f g : DisasterRecord → Cell) (v : Dataset) : List (ℚ × ℚ) :=
  v.filterMap (fun r =>
    match f r, g r with
    | some a, some b => some (a, b)
    | _, _ => none)

/-- Arithmetic mean of a rational list (0 on the empty list, as 0/0 = 0). -/
def mean (l : List ℚ) : ℚ :=
  l.sum / l.length

/-- Sum of squared deviations from the mean.  It is 0 exactly when the list
has no two distinct values, i.e. when the sample variance is 0 or undefined. -/
def sumSqDev (l : List ℚ) : ℚ :=
  (l.map (fun x => (x - mean l) ^ 2)) |>.sum

/-- Definedness of one cell of `filtered_df[impact_cols].corr()` (line 109):
the Pearson cell divides by the product of the standard deviations of the
paired observations, so it is the NaN sentinel exactly when either factor is
0 — fewer than two paired rows or a zero-variance side.  The numeric value
of a defined cell involves a real square root and no claim needs it, so the
embedding captures the NaN-ness of each cell. -/
def corrCellIsNaN (v : Dataset) (i j : ImpactCol) : Bool :=
  let ps := pairedVals (colOf i) (colOf j) v
  decide (sumSqDev (ps.map Prod.fst) = 0) || decide (sumSqDev (ps.map Prod.snd) = 0)

/-- The non-missing entries of one impact column over a view. -/
def colVals (v : Dataset) (i : ImpactCol) : List ℚ :=
  (v.map (colOf i)).filterMap id

/-- Zero sample variance of an impact column over a view: no two distinct
non-missing entries. -/
def colZeroVariance (v : Dataset) (i : ImpactCol) : Prop :=
  sumSqDev (colVals v i) = 0

/-- A candidate input file: it parses to a dataset or raises on read. -/
inductive RawFile
  | good (d : Dataset)
  | bad
deriving DecidableEq

/-- The load failure taxonomy of the spec. -/
inductive LoadError
  | FileNotFound
  | ParseError
deriving DecidableEq

/-- What the configured base directory holds at the two candidate names. -/
structure FS where
  primary : Option RawFile
  fallback : Option RawFile

/-- Parsing `pd.read_csv` on a located file: its dataset, or a parse failure. -/
def readCsv : RawFile → Except LoadError Dataset
  | .good d => .ok d
  | .bad => .error .ParseError

/-- Loader `load_data` (lines 19-34): try the primary name, fall back to the second
name only when the primary file is absent, fail when neither exists.  The
source reports failure by returning None after `st.error`; the error branch
carries the taxonomy name the spec gives that condition. -/
def load_data (fs : FS) : Except LoadError Dataset :=
  match fs.primary with
  | some f => readCsv f
  | none =>
    match fs.fallback with
    | some f => readCsv f
    | none => .error .FileNotFound

/-- Everything the downstream components derive in one pass. -/
structure Output where
  view : Dataset
  metrics : Metrics
  trends : List (Int × Nat)
deriving DecidableEq

/-- The downstream pass (lines 39-85): preprocess, filter, aggregate. -/
def renderPass (df : Dataset) (c : FilterCriteria) : Output :=
  let v := applyFilter (restrictAndClean df) c
  ⟨v, summarize v, yearlyTrends v⟩

/-- The whole script: the `if df is not None` guard (line 38) means no
downstream component runs when loading failed. -/
def runApp (fs : FS) (c : FilterCriteria) : Option Output :=
  match load_data fs with
  | .ok df => some (renderPass df c)
  | .error _ => none

/-- The session state the script holds between lines 40 and 69: the cleaned
climate subset and the filtered view derived from it. -/
structure AppState where
  climate : Dataset
  view : Dataset

/-- One filter interaction: recompute the view from the climate subset. -/
def filterStep (s : AppState) (c : FilterCriteria) : AppState :=
  { s with view := applyFilter s.climate c }

/-- Value `min(years)` of line 54: the least year present (0 on an empty frame,
where the source would raise before reaching the slider). -/
def minYear (v : Dataset) : Int :=
  match v.map (·.year) with
  | [] => 0
  | y :: ys => ys.foldl min y

/-- Value `max(years)` of line 55: the greatest year present. -/
def maxYear (v : Dataset) : Int :=
  match v.map (·.year) with
  | [] => 0
  | y :: ys => ys.foldl max y

/-- Options `sorted(df_climate[DisasterType].unique())` up to order: the distinct
types present. -/
def distinctTypes (v : Dataset) : List String :=
  (v.map (·.disasterType)).dedup

/-- The default sidebar state (lines 52-62): full year range, all types. -/
def defaultCriteria (v : Dataset) : FilterCriteria :=
  ⟨minYear v, maxYear v, distinctTypes v⟩

/-- The three-row dataset of the fill-determinism property: damages column
[10, missing, 30]. -/
def fillExample : Dataset :=
  [⟨2000, "Flood", some 0, some 0, some 10⟩,
   ⟨2001, "Flood", some 0, some 0, none⟩,
   ⟨2002, "Flood", some 0, some 0, some 30⟩]

/-- A one-row view, for the correlation sentinel instance. -/
def oneRowView : Dataset :=
  [⟨2000, "Flood", some 5, some 1, some 10⟩]

/-- A small concrete view used to instantiate quantified theorems. -/
def sampleView : Dataset :=
  [⟨2000, "Flood", some 5, some 1, some 10⟩,
   ⟨2001, "Storm", some 0, some 2, some 0⟩,
   ⟨2000, "Flood", some 10, some 3, some 30⟩]

/-- A dataset whose only climate row has a missing damages value, so the
type-restricted damages column is entirely missing. -/
def allMissingDamages : Dataset :=
  [⟨2000, "Flood", some 1, some 2, none⟩]

/-- A dataset whose climate rows include a non-missing damages value. -/
def oneGoodDamages : Dataset :=
  [⟨2000, "Flood", none, none, some 5⟩]

/-- C1: a row appears in the filtered view iff it is a row of the climate
subset whose year lies in the inclusive year range and whose disaster type
is among the selected types. -/
theorem C1_filter_membership (dfc : Dataset) (c : FilterCriteria)
    (r : DisasterRecord) :
    r ∈ applyFilter dfc c ↔
      r ∈ dfc ∧ (c.yearLo ≤ r.year ∧ r.year ≤ c.yearHi) ∧
        r.disasterType ∈ c.selectedTypes := by
  simp [applyFilter, List.mem_filter, and_assoc]

/-- C3: filtering with an empty selected-types list yields the empty view,
not an error; on it the event count and the three sums are 0 and the
yearly-trend sequence is empty — every downstream computation succeeds. -/
theorem C3_empty_selection_safe (dfc : Dataset) (lo hi : Int) :
    applyFilter dfc ⟨lo, hi, []⟩ = [] ∧
      summarize (applyFilter dfc ⟨lo, hi, []⟩) = ⟨0, 0, 0, 0⟩ ∧
      yearlyTrends (applyFilter dfc ⟨lo, hi, []⟩) = [] := by
  have hnil : applyFilter dfc ⟨lo, hi, []⟩ = [] := by
    simp [applyFilter, List.filter_eq_nil_iff]
  refine ⟨hnil, ?_, ?_⟩
  · rw [hnil]; rfl
  · rw [hnil]; rfl

/-- C5: when the primary file is absent, `load_data` returns the contents of
a parsing fallback file; when neither candidate exists it fails with
FileNotFound and, through the `df is not None` guard, no downstream
component runs. -/
theorem C5_load_fallback (fs : FS) (d : Dataset) (c : FilterCriteria) :
    (fs.primary = none → fs.fallback = some (.good d) →
        load_data fs = .ok d) ∧
      (fs.primary = none → fs.fallback = none →
        load_data fs = .error .FileNotFound ∧ runApp fs c = none) := by
  constructor
  · intro hp hf
    simp [load_data, hp, hf, readCsv]
  · intro hp hf
    constructor
    · simp [load_data, hp, hf]
    · simp [runApp, load_data, hp, hf]

/-- Witness for C5 at two concrete directory states: primary absent with a
good fallback, and both candidates absent. -/
theorem C5_load_fallback_witness :
    load_data ⟨none, some (.good [])⟩ = .ok [] ∧
      (load_data ⟨none, none⟩ = .error .FileNotFound ∧
        runApp ⟨none, none⟩ ⟨0, 0, []⟩ = none) :=
  ⟨(C5_load_fallback ⟨none, some (.good [])⟩ [] ⟨0, 0, []⟩).1 rfl rfl,
    (C5_load_fallback ⟨none, none⟩ [] ⟨0, 0, []⟩).2 rfl rfl⟩

/-- C8: the category allow-list restriction is idempotent — the restriction
applied twice yields the same rows in the same order as applied once, and
therefore the whole preprocessing on the restricted rows equals the whole
preprocessing on the raw rows. -/
theorem C8_allowlist_idempotent (df : Dataset) :
    typeRestrict (typeRestrict df) = typeRestrict df ∧
      restrictAndClean (typeRestrict df) = restrictAndClean df := by
  have h : typeRestrict (typeRestrict df) = typeRestrict df := by
    simp [typeRestrict, List.filter_filter]
  exact ⟨h, by simp [restrictAndClean, h]⟩

/-- C9: the filter step never mutates the climate subset — after a filter
interaction the stored subset equals the old one row for row, and the view
component equals a fresh derivation from that input. -/
theorem C9_filter_pure (s : AppState) (c : FilterCriteria) :
    (filterStep s c).climate = s.climate ∧
      (filterStep s c).view = applyFilter s.climate c :=
  ⟨rfl, rfl⟩

/-- C2: preprocessing keeps the type-restricted rows in place and, row by
row, missing deaths and affected become 0 while a missing damages value
becomes the pandas mean of the damages column over the type-restricted
subset (computed before any user filtering); that mean is the arithmetic
mean of the non-missing entries whenever any exist; on the concrete subset
with damages [10, missing, 30] the result is [10, 20, 30]. -/
theorem C2_missing_value_fill (df : Dataset) :
    (∀ (k : Nat) (r : DisasterRecord), (typeRestrict df)[k]? = some r →
      ∃ s, (restrictAndClean df)[k]? = some s ∧
        s.totalDeaths = some (r.totalDeaths.getD 0) ∧
        s.totalAffected = some (r.totalAffected.getD 0) ∧
        (r.totalDamages = none →
          s.totalDamages = seriesMean ((typeRestrict df).map (·.totalDamages))) ∧
        (∀ q, r.totalDamages = some q → s.totalDamages = some q)) ∧
    (∀ col : List Cell, col.filterMap id ≠ [] →
      seriesMean col =
        some ((col.filterMap id).sum / (col.filterMap id).length)) ∧
    restrictAndClean fillExample =
      [⟨2000, "Flood", some 0, some 0, some 10⟩,
       ⟨2001, "Flood", some 0, some 0, some 20⟩,
       ⟨2002, "Flood", some 0, some 0, some 30⟩] := by
  refine ⟨?_, ?_, ?_⟩
  case refine_3 =>
    simp [restrictAndClean, typeRestrict, fillExample, seriesMean, fillnaCell,
      climate_disasters]
    norm_num
  · intro k r hk
    refine ⟨{ r with
        totalDeaths := some (r.totalDeaths.getD 0)
        totalAffected := some (r.totalAffected.getD 0)
        totalDamages :=
          fillnaCell (seriesMean ((typeRestrict df).map (·.totalDamages)))
            r.totalDamages }, ?_, rfl, rfl, ?_, ?_⟩
    · simp [restrictAndClean, List.getElem?_map, hk]
    · intro hd
      simp [fillnaCell, hd]
    · intro q hq
      simp [fillnaCell, hq]
  · intro col hcol
    simp [seriesMean, List.isEmpty_iff, hcol]

/-- Witness for C2 on the concrete fill example: the middle row had missing
damages and receives the column mean of the type-restricted subset. -/
theorem C2_missing_value_fill_witness :
    ∃ s, (restrictAndClean fillExample)[1]? = some s ∧
      s.totalDamages = seriesMean ((typeRestrict fillExample).map (·.totalDamages)) := by
  obtain ⟨s, h1, _, _, h4, _⟩ :=
    (C2_missing_value_fill fillExample).1 1
      ⟨2001, "Flood", some 0, some 0, none⟩ (by decide)
  exact ⟨s, h1, h4 rfl⟩

/-- C6 as stated is false on the code: when every damages value in the
type-restricted subset is missing, the fill value — the mean of an empty
set of observations — is itself the NaN sentinel, and fillna leaves the
entries missing.  Concrete input: one Flood row with missing damages. -/
theorem C6_counterexample :
    ¬ (∀ r ∈ restrictAndClean allMissingDamages,
        r.totalDeaths ≠ none ∧ r.totalAffected ≠ none ∧
          r.totalDamages ≠ none) := by
  decide

/-- C6 amended: after preprocessing every record has non-missing totalDeaths
and totalAffected; totalDamages is non-missing provided at least one damages
value in the type-restricted subset was non-missing (when all were missing
they stay missing, since the fill value is NaN). -/
theorem C6_amended_invariant (df : Dataset) :
    ∀ r ∈ restrictAndClean df,
      r.totalDeaths ≠ none ∧ r.totalAffected ≠ none ∧
        ((∃ r₀ ∈ typeRestrict df, r₀.totalDamages ≠ none) →
          r.totalDamages ≠ none) := by
  intro r hr
  simp only [restrictAndClean, List.mem_map] at hr
  obtain ⟨r₀, hr₀, rfl⟩ := hr
  refine ⟨by simp, by simp, ?_⟩
  rintro ⟨r₁, hr₁, hd⟩
  cases hc : r₀.totalDamages with
  | some q => simp [fillnaCell, hc]
  | none =>
    simp [fillnaCell, hc, seriesMean, List.isEmpty_iff]
    exact ⟨r₁, hr₁, hd⟩

/-- Witness for C6 amended: a subset with one non-missing damages value
keeps every column non-missing after preprocessing. -/
theorem C6_amended_invariant_witness :
    (⟨2000, "Flood", some 0, some 0, some 5⟩ : DisasterRecord).totalDeaths ≠ none ∧
      (⟨2000, "Flood", some 0, some 0, some 5⟩ : DisasterRecord).totalDamages ≠ none := by
  have h := C6_amended_invariant oneGoodDamages
    ⟨2000, "Flood", some 0, some 0, some 5⟩ (by decide)
  exact ⟨h.1, h.2.2 ⟨⟨2000, "Flood", none, none, some 5⟩, by decide, by decide⟩⟩

/-- The first components of the yearly-trend pairs are the sorted distinct
years. -/
theorem yearlyTrends_map_fst (v : Dataset) :
    (yearlyTrends v).map Prod.fst = (distinctYears v).insertionSort (· ≤ ·) := by
  rw [yearlyTrends, List.map_map]
  show List.map id _ = _
  exact List.map_id _

/-- C7: the yearly trend lists one pair per distinct year of the view, the
years strictly ascending, each count being the number of rows of that
year, and a year appears iff some row of the view has it. -/
theorem C7_yearly_trend_grouping (v : Dataset) :
    List.Sorted (· < ·) ((yearlyTrends v).map Prod.fst) ∧
      (∀ p ∈ yearlyTrends v, p.2 = v.countP (fun r => r.year == p.1)) ∧
      (∀ y : Int, (∃ c, (y, c) ∈ yearlyTrends v) ↔ ∃ r ∈ v, r.year = y) := by
  refine ⟨?_, ?_, ?_⟩
  · rw [yearlyTrends_map_fst]
    have hs : List.Sorted (· ≤ ·) ((distinctYears v).insertionSort (· ≤ ·)) :=
      List.sorted_insertionSort _ _
    have hn : ((distinctYears v).insertionSort (· ≤ ·)).Nodup :=
      ((List.perm_insertionSort _ _).nodup_iff).mpr (List.nodup_dedup _)
    exact hs.lt_of_le hn
  · intro p hp
    obtain ⟨y, _, rfl⟩ := List.mem_map.mp hp
    rfl
  · intro y
    constructor
    · rintro ⟨c, hc⟩
      obtain ⟨y₀, hy₀, heq⟩ := List.mem_map.mp hc
      obtain ⟨rfl, -⟩ := Prod.mk.injEq .. ▸ heq
      have : y₀ ∈ distinctYears v := (List.mem_insertionSort _).mp hy₀
      simpa [distinctYears, List.mem_dedup, List.mem_map, eq_comm] using this
    · rintro ⟨r, hr, rfl⟩
      refine ⟨v.countP (fun s => s.year == r.year), ?_⟩
      rw [yearlyTrends, List.mem_map]
      refine ⟨r.year, ?_, rfl⟩
      rw [List.mem_insertionSort]
      simp [distinctYears, List.mem_dedup, List.mem_map]
      exact ⟨r, hr, rfl⟩

/-- Witness for C7 on the sample view: 2000 occurs in two rows and 2001
appears among the trend years. -/
theorem C7_yearly_trend_grouping_witness :
    (2 : Nat) = sampleView.countP (fun r => r.year == (2000 : Int)) ∧
      (∃ c, ((2001 : Int), c) ∈ yearlyTrends sampleView) :=
  ⟨(C7_yearly_trend_grouping sampleView).2.1 (2000, 2) (by decide),
    ((C7_yearly_trend_grouping sampleView).2.2 2001).mpr
      ⟨⟨2001, "Storm", some 0, some 2, some 0⟩, by decide, rfl⟩⟩

/-- Folding min over a list never exceeds the initial value. -/
theorem foldl_min_le_init (l : List Int) (a : Int) : l.foldl min a ≤ a := by
  induction l generalizing a with
  | nil => exact le_refl a
  | cons b t ih => exact le_trans (ih (min a b)) (min_le_left a b)

/-- Folding min over a list is below every member. -/
theorem foldl_min_le_mem (l : List Int) (a x : Int) (hx : x ∈ l) :
    l.foldl min a ≤ x := by
  induction l generalizing a with
  | nil => cases hx
  | cons b t ih =>
    rcases List.mem_cons.mp hx with rfl | h
    · exact le_trans (foldl_min_le_init t (min a x)) (min_le_right a x)
    · exact ih (min a b) h

/-- Folding max over a list is at least the initial value. -/
theorem le_foldl_max_init (l : List Int) (a : Int) : a ≤ l.foldl max a := by
  induction l generalizing a with
  | nil => exact le_refl a
  | cons b t ih => exact le_trans (le_max_left a b) (ih (max a b))

/-- Folding max over a list is at least every member. -/
theorem le_foldl_max_mem (l : List Int) (a x : Int) (hx : x ∈ l) :
    x ≤ l.foldl max a := by
  induction l generalizing a with
  | nil => cases hx
  | cons b t ih =>
    rcases List.mem_cons.mp hx with rfl | h
    · exact le_trans (le_max_right a x) (le_foldl_max_init t (max a x))
    · exact ih (max a b) h

/-- C10: with the default sidebar state — the full year range and every
type present selected — the filter is the identity on the climate subset. -/
theorem C10_default_filter_identity (v : Dataset) (hv : v ≠ []) :
    applyFilter v (defaultCriteria v) = v := by
  rw [applyFilter, List.filter_eq_self]
  intro r hr
  have h1 : minYear v ≤ r.year := by
    cases v with
    | nil => exact absurd rfl hv
    | cons r₀ t =>
      show (t.map (·.year)).foldl min r₀.year ≤ r.year
      rcases List.mem_cons.mp hr with rfl | h
      · exact foldl_min_le_init _ _
      · exact foldl_min_le_mem _ _ _ (List.mem_map_of_mem _ h)
  have h2 : r.year ≤ maxYear v := by
    cases v with
    | nil => exact absurd rfl hv
    | cons r₀ t =>
      show r.year ≤ (t.map (·.year)).foldl max r₀.year
      rcases List.mem_cons.mp hr with rfl | h
      · exact le_foldl_max_init _ _
      · exact le_foldl_max_mem _ _ _ (List.mem_map_of_mem _ h)
  have h3 : r.disasterType ∈ distinctTypes v := by
    simp [distinctTypes, List.mem_dedup, List.mem_map]
    exact ⟨r, hr, rfl⟩
  simp [defaultCriteria, h1, h2, h3]

/-- Witness for C10 at the concrete sample view. -/
theorem C10_default_filter_identity_witness :
    applyFilter sampleView (defaultCriteria sampleView) = sampleView :=
  C10_default_filter_identity sampleView (by decide)

/-- The sum of a constant list is its length times the constant. -/
theorem list_sum_const (l : List ℚ) (c : ℚ) (h : ∀ x ∈ l, x = c) :
    l.sum = l.length * c := by
  induction l with
  | nil => simp
  | cons a t ih =>
    have ha : a = c := h a (List.mem_cons_self a t)
    have ht := ih (fun x hx => h x (List.mem_cons_of_mem a hx))
    rw [List.sum_cons, ht, ha, List.length_cons]
    push_cast
    ring

/-- The mean of a nonempty constant list is the constant. -/
theorem mean_const (l : List ℚ) (c : ℚ) (hne : l ≠ []) (h : ∀ x ∈ l, x = c) :
    mean l = c := by
  have hn : (l.length : ℚ) ≠ 0 :=
    Nat.cast_ne_zero.mpr (fun h0 => hne (List.length_eq_zero.mp h0))
  rw [mean, list_sum_const l c h, mul_comm, mul_div_assoc, div_self hn, mul_one]

/-- A constant list has zero sum of squared deviations. -/
theorem sumSqDev_const (l : List ℚ) (c : ℚ) (h : ∀ x ∈ l, x = c) :
    sumSqDev l = 0 := by
  rcases eq_or_ne l [] with rfl | hne
  · simp [sumSqDev]
  · have hm := mean_const l c hne h
    rw [sumSqDev]
    have hz : ∀ y ∈ l.map (fun x => (x - mean l) ^ 2), y = 0 := by
      intro y hy
      obtain ⟨x, hx, rfl⟩ := List.mem_map.mp hy
      rw [h x hx, hm]
      ring
    rw [list_sum_const _ 0 hz, mul_zero]

/-- A list of nonnegative rationals with zero sum is all zero. -/
theorem list_sum_zero_all (l : List ℚ) (h0 : ∀ x ∈ l, 0 ≤ x)
    (hs : l.sum = 0) : ∀ x ∈ l, x = 0 := by
  induction l with
  | nil => intro x hx; cases hx
  | cons a t ih =>
    have ha : 0 ≤ a := h0 a (List.mem_cons_self a t)
    have ht0 : ∀ x ∈ t, 0 ≤ x := fun x hx => h0 x (List.mem_cons_of_mem a hx)
    have hts : 0 ≤ t.sum := List.sum_nonneg ht0
    rw [List.sum_cons] at hs
    intro x hx
    rcases List.mem_cons.mp hx with rfl | hx
    · linarith
    · exact ih ht0 (by linarith) x hx

/-- Zero sum of squared deviations forces every entry to equal the mean. -/
theorem sumSqDev_eq_zero_const (l : List ℚ) (h : sumSqDev l = 0) :
    ∀ x ∈ l, x = mean l := by
  intro x hx
  have h0 : ∀ y ∈ l.map (fun z => (z - mean l) ^ 2), 0 ≤ y := by
    intro y hy
    obtain ⟨z, _, rfl⟩ := List.mem_map.mp hy
    positivity
  have hz := list_sum_zero_all _ h0 h ((x - mean l) ^ 2)
    (List.mem_map_of_mem _ hx)
  have hd : x - mean l = 0 := by
    nlinarith [hz]
  linarith

/-- A list with at most one entry has zero sum of squared deviations. -/
theorem sumSqDev_short (l : List ℚ) (h : l.length ≤ 1) : sumSqDev l = 0 := by
  cases l with
  | nil => simp [sumSqDev]
  | cons a t =>
    cases t with
    | nil => simp [sumSqDev, mean]
    | cons b u => simp at h

/-- A first component of a paired observation is a non-missing entry of the
first column. -/
theorem pairedVals_fst_mem (f g : DisasterRecord → Cell) (v : Dataset)
    (x : ℚ) (hx : x ∈ (pairedVals f g v).map Prod.fst) :
    x ∈ (v.map f).filterMap id := by
  obtain ⟨⟨a, b⟩, hab, rfl⟩ := List.mem_map.mp hx
  obtain ⟨r, hr, hfr⟩ := List.mem_filterMap.mp hab
  rw [List.mem_filterMap]
  refine ⟨f r, List.mem_map_of_mem f hr, ?_⟩
  revert hfr
  cases f r <;> cases g r <;> simp_all

/-- A second component of a paired observation is a non-missing entry of the
second column. -/
theorem pairedVals_snd_mem (f g : DisasterRecord → Cell) (v : Dataset)
    (x : ℚ) (hx : x ∈ (pairedVals f g v).map Prod.snd) :
    x ∈ (v.map g).filterMap id := by
  obtain ⟨⟨a, b⟩, hab, rfl⟩ := List.mem_map.mp hx
  obtain ⟨r, hr, hfr⟩ := List.mem_filterMap.mp hab
  rw [List.mem_filterMap]
  refine ⟨g r, List.mem_map_of_mem g hr, ?_⟩
  revert hfr
  cases f r <;> cases g r <;> simp_all

/-- C4: whenever the view has fewer than two rows, or one of the two
impact columns of a cell has zero variance over the view, that correlation
cell is the NaN sentinel — in particular never the numbers 0 or 1. -/
theorem C4_correlation_nan (v : Dataset) (i j : ImpactCol)
    (h : v.length < 2 ∨ colZeroVariance v i ∨ colZeroVariance v j) :
    corrCellIsNaN v i j = true := by
  rw [corrCellIsNaN]
  simp only [Bool.or_eq_true, decide_eq_true_eq]
  rcases h with h | h | h
  · left
    apply sumSqDev_short
    calc ((pairedVals (colOf i) (colOf j) v).map Prod.fst).length
        = (pairedVals (colOf i) (colOf j) v).length := List.length_map _ _
      _ ≤ v.length := List.length_filterMap_le _ _
      _ ≤ 1 := by omega
  · left
    have hall := sumSqDev_eq_zero_const _ h
    apply sumSqDev_const _ (mean (colVals v i))
    intro x hx
    exact hall x (pairedVals_fst_mem _ _ _ _ hx)
  · right
    have hall := sumSqDev_eq_zero_const _ h
    apply sumSqDev_const _ (mean (colVals v j))
    intro x hx
    exact hall x (pairedVals_snd_mem _ _ _ _ hx)

/-- Witness for C4: on a one-row view every correlation cell is NaN. -/
theorem C4_correlation_nan_witness :
    corrCellIsNaN oneRowView ImpactCol.deaths ImpactCol.damages = true ∧
      corrCellIsNaN oneRowView ImpactCol.affected ImpactCol.affected = true :=
  ⟨C4_correlation_nan oneRowView ImpactCol.deaths ImpactCol.damages
      (Or.inl (by decide)),
    C4_correlation_nan oneRowView ImpactCol.affected ImpactCol.affected
      (Or.inl (by decide))⟩

end ClimateRisk
